import Mathlib

/-!
Shallow embedding of the cn-oam catalog client (catalog search over a remote
GeoParquet file via DuckDB-WASM, the app's search wiring, the upload modal's
status polling, and catalog statistics), together with proofs checking the
specification's claims against it.

Conventions of the embedding:
* JavaScript numbers that the code only compares are modelled as `Int`
  (coordinates, ground sample distance).
* DuckDB-WASM returns BigInt for integer columns; the code converts them with
  `Number(...)`. The value universe for such columns is `NumVal`, with the two
  constructors distinguishing BigInt from plain Number.
* ISO datetime values are strings, compared lexicographically (which agrees
  with timestamp order on well-formed ISO-8601 UTC strings).
* SQL `NULL`-able text columns are `Option String`; a comparison on `NULL`
  yields `NULL`, i.e. the row is filtered out, which the embedding renders as
  `false`.
* The SQL engine's `ORDER BY datetime DESC` fixes no order among rows with
  equal `datetime`; the embedding makes the engine concrete as a stable
  insertion sort, so rows with equal keys stay in store order.
-/

/-- A value of an integer column as seen from JS: either a BigInt (what
DuckDB-WASM hands back) or a plain Number. -/
inductive NumVal where
  | big (n : Int)
  | plain (n : Int)
deriving DecidableEq

/-- `num(v)` from the source: convert BigInt to Number, leave Number alone. -/
def numConv : NumVal → NumVal
  | .big n => .plain n
  | .plain n => .plain n

/-- Is this value a plain JS Number (not a BigInt)? -/
def NumVal.isPlain : NumVal → Bool
  | .big _ => false
  | .plain _ => true

/-- `Number(x)`: the numeric value carried, regardless of representation. -/
def NumVal.toInt : NumVal → Int
  | .big n => n
  | .plain n => n

/-- Does `f` accept some suffix of the list (the list itself included)? -/
def suffixAny (f : List Char → Bool) : List Char → Bool
  | [] => f []
  | c :: s => f (c :: s) || suffixAny f s

/-- SQL `LIKE` pattern matching over character lists: `%` matches any
(possibly empty) sequence, `_` any single character, anything else itself. -/
def likeMatch : List Char → List Char → Bool
  | [], s => s.isEmpty
  | '%' :: ps, s => suffixAny (likeMatch ps) s
  | '_' :: ps, s =>
      match s with
      | [] => false
      | _ :: rest => likeMatch ps rest
  | p :: ps, s =>
      match s with
      | [] => false
      | c :: rest => p == c && likeMatch ps rest

/-- `LOWER(col) LIKE '%text%'` with `text` already lowercased: the condition
the source builds for the license and title filters. -/
def likeContains (col : String) (text : String) : Bool :=
  likeMatch ('%' :: (text.data ++ ['%'])) col.data

/-- Plain substring test on character lists (used only to state the spec's
own wording of "substring match" for comparison with the code). -/
def hasPre : List Char → List Char → Bool
  | [], _ => true
  | _ :: _, [] => false
  | a :: as, b :: bs => a == b && hasPre as bs

/-- Plain substring occurrence test. -/
def hasSub (pat : List Char) : List Char → Bool
  | [] => hasPre pat []
  | c :: rest => hasPre pat (c :: rest) || hasSub pat rest

/-- Lexicographic strict order on character lists (the order in which the
engine compares ISO-8601 datetime strings, agreeing with timestamp order). -/
def charsLt : List Char → List Char → Bool
  | [], [] => false
  | [], _ :: _ => true
  | _ :: _, [] => false
  | a :: as, b :: bs => if a < b then true else if b < a then false else charsLt as bs

/-- Lexicographic strict order on strings. -/
def strLtB (a b : String) : Bool := charsLt a.data b.data

/-- Lexicographic `≤` on strings. -/
def strLeB (a b : String) : Bool := !strLtB b a

/-- `LOWER(...)` / `toLowerCase()`: per-character lowercasing. -/
def lowerStr (s : String) : String := ⟨s.data.map Char.toLower⟩

/-- The four bbox covering columns of a catalog row. -/
structure BBoxCols where
  xmin : Int
  ymin : Int
  xmax : Int
  ymax : Int
deriving DecidableEq

/-- One row of catalog.parquet, with the columns the SELECT list reads. -/
structure CatalogRow where
  id : String
  title : Option String
  datetime : String
  gsd : Option Int
  platform_type : Option String
  producer_name : Option String
  license : Option String
  cog_href : String
  thumbnail_href : String
  file_size : NumVal
  width : NumVal
  height : NumVal
  bands : NumVal
  epsg : NumVal
  uploaded_by : String
  uploaded_at : String
  bbox : BBoxCols
deriving DecidableEq

/-- The query rectangle `[west, south, east, north]`. -/
structure QueryBBox where
  west : Int
  south : Int
  east : Int
  north : Int
deriving DecidableEq

/-- The parameter object of `searchCatalog`, with the source's defaults:
`bbox = null`, the string filters empty (falsy), `maxGsd = null`,
`limit = 200`. -/
structure SearchParams where
  bbox : Option QueryBBox := none
  dateStart : String := ""
  dateEnd : String := ""
  platform : String := ""
  license : String := ""
  maxGsd : Option Int := none
  query : String := ""
  limit : Nat := 200

/-- Spatial condition pushed when `bbox` is supplied:
`bbox.xmax >= west AND bbox.xmin <= east AND bbox.ymax >= south AND
bbox.ymin <= north`; absent `bbox` pushes no condition. -/
def bboxCond (q : SearchParams) (r : CatalogRow) : Bool :=
  match q.bbox with
  | none => true
  | some b =>
      decide (r.bbox.xmax ≥ b.west) && decide (r.bbox.xmin ≤ b.east) &&
      decide (r.bbox.ymax ≥ b.south) && decide (r.bbox.ymin ≤ b.north)

/-- `datetime >= dateStart`, pushed only when `dateStart` is non-empty. -/
def dateStartCond (q : SearchParams) (r : CatalogRow) : Bool :=
  if q.dateStart = "" then true else strLeB q.dateStart r.datetime

/-- `datetime <= dateEnd + 'T23:59:59.999Z'`, pushed only when `dateEnd` is
non-empty. -/
def dateEndCond (q : SearchParams) (r : CatalogRow) : Bool :=
  if q.dateEnd = "" then true
  else strLeB r.datetime (q.dateEnd ++ "T23:59:59.999Z")

/-- Platform condition: for the literal filter value `uav` the source pushes
`LOWER(platform_type) = 'uav' OR LOWER(platform_type) = 'drone'`; otherwise
`LOWER(platform_type) = lower(filter)`. `NULL` platform_type fails either. -/
def platformCond (q : SearchParams) (r : CatalogRow) : Bool :=
  if q.platform = "" then true
  else
    match r.platform_type with
    | none => false
    | some p =>
        if q.platform = "uav" then
          lowerStr p == "uav" || lowerStr p == "drone"
        else lowerStr p == lowerStr q.platform

/-- License condition: `LOWER(license) LIKE '%lower(filter)%'`. -/
def licenseCond (q : SearchParams) (r : CatalogRow) : Bool :=
  if q.license = "" then true
  else
    match r.license with
    | none => false
    | some l => likeContains (lowerStr l) (lowerStr q.license)

/-- GSD condition `gsd <= maxGsd`, pushed only when `maxGsd` is truthy
(neither `null` nor `0`). `NULL` gsd fails the comparison. -/
def gsdCond (q : SearchParams) (r : CatalogRow) : Bool :=
  match q.maxGsd with
  | none => true
  | some g =>
      if g = 0 then true
      else match r.gsd with
        | none => false
        | some v => decide (v ≤ g)

/-- Text condition: `LOWER(title) LIKE '%lower(query)%'`. -/
def queryCond (q : SearchParams) (r : CatalogRow) : Bool :=
  if q.query = "" then true
  else
    match r.title with
    | none => false
    | some t => likeContains (lowerStr t) (lowerStr q.query)

/-- The full WHERE clause built by `searchCatalog`: the conjunction of the
pushed conditions (an absent filter pushes nothing, i.e. `true`). -/
def rowMatches (q : SearchParams) (r : CatalogRow) : Bool :=
  bboxCond q r && dateStartCond q r && dateEndCond q r && platformCond q r &&
    licenseCond q r && gsdCond q r && queryCond q r

/-- Insert a row into a list kept in descending `datetime` order, after all
rows with an equal or later `datetime` already present (stable). -/
def insertDesc (r : CatalogRow) : List CatalogRow → List CatalogRow
  | [] => [r]
  | x :: xs =>
      if strLtB r.datetime x.datetime then x :: insertDesc r xs
      else r :: x :: xs

/-- The engine's `ORDER BY datetime DESC`, made concrete as a stable
insertion sort: equal datetimes keep their store order. -/
def sortByDatetimeDesc (rs : List CatalogRow) : List CatalogRow :=
  rs.foldr insertDesc []

/-- GeoJSON geometry as built by the source: a type tag and a list of rings,
each ring a list of `(x, y)` positions. -/
structure Geometry where
  gtype : String
  coordinates : List (List (Int × Int))
deriving DecidableEq

/-- The `properties` object of a returned feature, field for field as the
source builds it. -/
structure FeatureProps where
  id : String
  title : String
  datetime : String
  date : String
  gsd : Option Int
  platform : String
  platform_type : Option String
  producer_name : String
  provider : String
  license : String
  cog_href : String
  thumbnail : String
  thumbnail_href : String
  file_size : NumVal
  width : NumVal
  height : NumVal
  bands : NumVal
  epsg : NumVal
  uploaded_by : String
  uploaded_at : String
deriving DecidableEq

/-- A returned GeoJSON feature. -/
structure Feature where
  ftype : String
  geometry : Geometry
  properties : FeatureProps
deriving DecidableEq

/-- JavaScript `x || d` on an optional string: `null` and `""` both fall
back to the default. -/
def strOr (x : Option String) (d : String) : String :=
  match x with
  | none => d
  | some s => if s = "" then d else s

/-- The row-to-feature mapping of `searchCatalog`: rectangle polygon from the
bbox covering columns (`bbox_west = xmin` etc.), properties copied with the
source's fallbacks, integer columns passed through `num` (BigInt→Number). -/
def featureOf (row : CatalogRow) : Feature where
  ftype := "Feature"
  geometry :=
    { gtype := "Polygon"
      coordinates :=
        [[ (row.bbox.xmin, row.bbox.ymin),
           (row.bbox.xmax, row.bbox.ymin),
           (row.bbox.xmax, row.bbox.ymax),
           (row.bbox.xmin, row.bbox.ymax),
           (row.bbox.xmin, row.bbox.ymin) ]] }
  properties :=
    { id := row.id
      title := strOr row.title "Untitled Image"
      datetime := row.datetime
      date := row.datetime
      gsd := row.gsd
      platform := strOr row.platform_type "unknown"
      platform_type := row.platform_type
      producer_name := strOr row.producer_name "Unknown"
      provider := strOr row.producer_name "Unknown"
      license := strOr row.license "Unknown"
      cog_href := row.cog_href
      thumbnail := row.thumbnail_href
      thumbnail_href := row.thumbnail_href
      file_size := numConv row.file_size
      width := numConv row.width
      height := numConv row.height
      bands := numConv row.bands
      epsg := numConv row.epsg
      uploaded_by := row.uploaded_by
      uploaded_at := row.uploaded_at }

/-- `searchCatalog` over a store `st` (the rows of catalog.parquet): filter
by the pushed WHERE clause, `ORDER BY datetime DESC`, `LIMIT limit`, then map
rows to GeoJSON features. -/
def searchCatalog (q : SearchParams) (st : List CatalogRow) : List Feature :=
  (((sortByDatetimeDesc (st.filter (rowMatches q))).take q.limit).map featureOf)

/-- Case-insensitive string equality (used to state the spec's "exact
categorical match case-insensitive"). -/
def eqCI (a b : String) : Bool :=
  lowerStr a == lowerStr b

/-- The matching predicate as the SPECIFICATION words it, for comparison with
the code's `rowMatches`: bbox overlap, inclusive date range, exact
case-insensitive categorical match for platform and license, substring match
on title. -/
def specMatches (q : SearchParams) (r : CatalogRow) : Bool :=
  bboxCond q r && dateStartCond q r && dateEndCond q r &&
  (if q.platform = "" then true
   else match r.platform_type with
     | none => false
     | some p => eqCI p q.platform) &&
  (if q.license = "" then true
   else match r.license with
     | none => false
     | some l => eqCI l q.license) &&
  (if q.query = "" then true
   else match r.title with
     | none => false
     | some t => hasSub (lowerStr q.query).data (lowerStr t).data)

/-- Per-block min/max statistics of the bbox covering columns (Parquet
row-group statistics of catalog.parquet). -/
structure BlockStats where
  xmin : Int
  ymin : Int
  xmax : Int
  ymax : Int
deriving DecidableEq

/-- One block (row group) of the remote store: its statistics and its rows. -/
structure ParquetBlock where
  stats : BlockStats
  rows : List CatalogRow
deriving DecidableEq

/-- Do a block's statistics overlap the query rectangle? Exactly the shape of
the condition `searchCatalog` pushes on the covering columns. -/
def statsOverlap (s : BlockStats) (b : QueryBBox) : Bool :=
  decide (s.xmax ≥ b.west) && decide (s.xmin ≤ b.east) &&
    decide (s.ymax ≥ b.south) && decide (s.ymin ≤ b.north)

/-- A block's statistics are valid: every row's bbox lies inside them. -/
def blockStatsValid (blk : ParquetBlock) : Bool :=
  blk.rows.all fun r =>
    decide (blk.stats.xmin ≤ r.bbox.xmin) && decide (r.bbox.xmax ≤ blk.stats.xmax) &&
      decide (blk.stats.ymin ≤ r.bbox.ymin) && decide (r.bbox.ymax ≤ blk.stats.ymax)

/-- Modelled from the spec: the pruned range reader over the remote store.
The reading loop itself lives inside DuckDB-WASM (not in src); src only
pushes the bbox condition on the covering columns. Per the spec, the engine
"reads a block only if its statistics overlap the query rectangle"; the
blocks fetched for a query are exactly those whose statistics overlap it. -/
def prunedRead (blocks : List ParquetBlock) (b : QueryBBox) : List ParquetBlock :=
  blocks.filter fun blk => statsOverlap blk.stats b

/-- The module-level connection state of the catalog client: the cached
`initPromise` (identified by a token) and a counter of how many times the
one-time setup body has been started. -/
structure CatalogConnState where
  initPromise : Option Nat
  setups : Nat
deriving DecidableEq

/-- `initCatalog`: if `initPromise` is already set, return it unchanged;
otherwise start the setup body once (a fresh promise token) and cache it.
The check and the assignment run atomically in JS (no await between them). -/
def initCatalog (st : CatalogConnState) (fresh : Nat) : CatalogConnState × Nat :=
  match st.initPromise with
  | some p => (st, p)
  | none => ({ initPromise := some fresh, setups := st.setups + 1 }, fresh)

/-- A sequence of `n` calls to `initCatalog` (each with a distinct fresh
token), returning the final state and the promise each caller got. -/
def initCalls : Nat → CatalogConnState → Nat → CatalogConnState × List Nat
  | 0, st, _ => (st, [])
  | n + 1, st, fresh =>
      let r := initCatalog st fresh
      let rest := initCalls n r.1 (fresh + 1)
      (rest.1, r.2 :: rest.2)

/-- The completion effect of one `runSearch` call in the app: the `await`
returns and `setFeatures(results)` unconditionally replaces the visible
feature list with that search's results — there is no sequence-number
guard. `results i` is what search number `i` resolved to; `order` is the
order in which in-flight searches complete. -/
def runSearchCompletions (results : Nat → List Feature) (order : List Nat)
    (features : List Feature) : List Feature :=
  order.foldl (fun _ i => results i) features

/-- The outcome of one status fetch inside the poll interval: a thrown fetch
error (caught, polling continues), a non-ok response (ignored), or an ok JSON
body with optional `step`, a `status` string, and optional `error` text. -/
inductive FetchOutcome where
  | netErr
  | notOk
  | ok (step : Option String) (uploadStatus : String) (errMsg : Option String)

/-- The client-side state touched by `pollStatus`: the modal's `status`,
`error` and `processingStep`, plus whether the interval is still armed. -/
structure PollClient where
  status : String
  error : String
  processingStep : Option String
  polling : Bool
deriving DecidableEq

/-- The timeout message set when the poll bound is exceeded. -/
def timeoutMsg : String :=
  "Processing timed out. The image may still be processing — check back later."

/-- One tick of the poll interval body after the count check: fetch the
status file and react to it exactly as the source does. -/
def pollTick (c : PollClient) (o : FetchOutcome) : PollClient :=
  match o with
  | .netErr => c
  | .notOk => c
  | .ok stepOpt st errMsg =>
      let c1 :=
        match stepOpt with
        | some s => { c with processingStep := some s }
        | none => c
      if st = "complete" then
        { c1 with processingStep := some "done", status := "complete",
                  polling := false }
      else if st = "error" then
        { c1 with status := "error", error := strOr errMsg "Processing failed",
                  polling := false }
      else c1

/-- The poll interval: each firing increments `pollCount`; once it exceeds
`maxPolls` the interval is cleared and the client is put in the timed-out
error state; otherwise the fetch outcome for this tick is processed. `fuel`
bounds the recursion; `maxPolls + 1` ticks always suffice because the
count check clears the interval at tick `maxPolls + 1` at the latest. -/
def pollLoop (maxPolls : Nat) (responses : Nat → FetchOutcome) :
    Nat → Nat → PollClient → PollClient
  | 0, _, c => c
  | fuel + 1, count, c =>
      if c.polling then
        if count + 1 > maxPolls then
          { c with status := "error", error := timeoutMsg, polling := false }
        else
          pollLoop maxPolls responses fuel (count + 1)
            (pollTick c (responses (count + 1)))
      else c

/-- The client state `pollStatus` starts from: `setStatus('processing')`,
`setProcessingStep(null)` have just run and the interval is armed. -/
def pollStart : PollClient :=
  { status := "processing", error := "", processingStep := none,
    polling := true }

/-- `pollStatus`: run the interval with the source's bound `maxPolls = 120`
until it clears itself (timeout, `complete`, or `error`). -/
def pollStatus (responses : Nat → FetchOutcome) : PollClient :=
  pollLoop 120 responses 121 0 pollStart

/-- The single row returned by the statistics aggregate query. -/
structure StatsRow where
  total_images : NumVal
  earliest : Option String
  latest : Option String
  platform_count : NumVal
  total_size_bytes : NumVal
deriving DecidableEq

/-- The statistics object `getCatalogStats` returns. -/
structure CatalogStats where
  totalImages : Int
  earliest : Option String
  latest : Option String
  platformCount : Int
  totalSizeBytes : Int
deriving DecidableEq

/-- The zeroed default statistics object. -/
def zeroStats : CatalogStats :=
  { totalImages := 0, earliest := none, latest := none, platformCount := 0,
    totalSizeBytes := 0 }

/-- `result.toArray()[0]?.toJSON()` handling: no row yields the zeroed
default, otherwise the row's aggregates are converted with `Number(...)`. -/
def statsOfRows (rows : List StatsRow) : CatalogStats :=
  match rows.head? with
  | none => zeroStats
  | some row =>
      { totalImages := row.total_images.toInt
        earliest := row.earliest
        latest := row.latest
        platformCount := row.platform_count.toInt
        totalSizeBytes := row.total_size_bytes.toInt }

/-- `getCatalogStats`: the `if (!conn) await initCatalog()` guard runs before
the try block, so a failed lazy init propagates; the aggregate query itself
runs inside try/catch, and any query failure is caught and replaced by the
zeroed default statistics object. `connReady` is whether `conn` is non-null,
`initOutcome` how the awaited init promise settles, `queryOutcome` how the
aggregate query settles. -/
def getCatalogStats (connReady : Bool) (initOutcome : Except String Unit)
    (queryOutcome : Except String (List StatsRow)) :
    Except String CatalogStats :=
  if connReady then
    .ok (match queryOutcome with
      | .error _ => zeroStats
      | .ok rows => statsOfRows rows)
  else
    match initOutcome with
    | .error e => .error e
    | .ok _ =>
        .ok (match queryOutcome with
          | .error _ => zeroStats
          | .ok rows => statsOfRows rows)

/-- Record A of spec scenario A: bbox `[-5,-5,5,5]`. -/
def recA : CatalogRow :=
  { id := "A", title := some "Record A", datetime := "2024-03-01T00:00:00Z",
    gsd := some 1, platform_type := some "UAV", producer_name := some "p",
    license := some "CC-BY 4.0", cog_href := "cogA", thumbnail_href := "thA",
    file_size := .big 10, width := .big 100, height := .big 100,
    bands := .big 3, epsg := .big 4326, uploaded_by := "u",
    uploaded_at := "2024-03-02T00:00:00Z", bbox := ⟨-5, -5, 5, 5⟩ }

/-- Record B of spec scenario A: bbox `[20,20,30,30]`, outside the query. -/
def recB : CatalogRow :=
  { id := "B", title := some "Record B", datetime := "2024-04-01T00:00:00Z",
    gsd := some 1, platform_type := some "Satellite",
    producer_name := some "p", license := some "CC-BY 4.0",
    cog_href := "cogB", thumbnail_href := "thB", file_size := .big 20,
    width := .big 200, height := .big 200, bands := .big 3,
    epsg := .big 4326, uploaded_by := "u",
    uploaded_at := "2024-04-02T00:00:00Z", bbox := ⟨20, 20, 30, 30⟩ }

/-- A drone record with a CC-BY-SA license, inside the query rectangle. -/
def rCE : CatalogRow :=
  { id := "img1", title := some "Flood Survey",
    datetime := "2024-06-01T00:00:00Z", gsd := some 1,
    platform_type := some "Drone", producer_name := some "OAM",
    license := some "CC-BY-SA 4.0", cog_href := "cog1",
    thumbnail_href := "th1", file_size := .big 1, width := .big 1,
    height := .big 1, bands := .big 3, epsg := .big 4326,
    uploaded_by := "u", uploaded_at := "2024-06-02T00:00:00Z",
    bbox := ⟨-5, -5, 5, 5⟩ }

/-- A query with platform filter `uav` and license filter `cc-by`. -/
def qCE : SearchParams :=
  { bbox := some ⟨-10, -10, 10, 10⟩, platform := "uav", license := "cc-by" }

/-- A query with every parameter at its default (in particular no bbox). -/
def qAll : SearchParams := {}

/-- Tie record listed first in the store, with the larger id. -/
def rTieB : CatalogRow :=
  { id := "b", title := some "Tie B", datetime := "2024-05-01T00:00:00Z",
    gsd := some 1, platform_type := some "UAV", producer_name := some "p",
    license := some "CC-BY 4.0", cog_href := "cB", thumbnail_href := "tB",
    file_size := .big 1, width := .big 1, height := .big 1, bands := .big 3,
    epsg := .big 4326, uploaded_by := "u",
    uploaded_at := "2024-05-02T00:00:00Z", bbox := ⟨0, 0, 1, 1⟩ }

/-- Tie record listed second in the store, with the smaller id and the same
datetime as `rTieB`. -/
def rTieA : CatalogRow :=
  { id := "a", title := some "Tie A", datetime := "2024-05-01T00:00:00Z",
    gsd := some 1, platform_type := some "UAV", producer_name := some "p",
    license := some "CC-BY 4.0", cog_href := "cA", thumbnail_href := "tA",
    file_size := .big 1, width := .big 1, height := .big 1, bands := .big 3,
    epsg := .big 4326, uploaded_by := "u",
    uploaded_at := "2024-05-02T00:00:00Z", bbox := ⟨0, 0, 1, 1⟩ }

/-- Results of two overlapping-viewport searches: search 1 resolves to one
feature, every other search to the empty list. -/
def resultsCE : Nat → List Feature := fun i => if i = 1 then [featureOf rCE] else []

/-- A status stream that stays pending for the first 120 polls and reports
`complete` from poll 121 on (the pipeline succeeds after the client's poll
bound is exhausted). -/
def pollRespW : Nat → FetchOutcome := fun i =>
  if i ≤ 120 then .notOk else .ok (some "done") "complete" none

lemma charsLt_asymm : ∀ a b : List Char, charsLt a b = true → charsLt b a = false := by
  intro a
  induction a with
  | nil =>
      intro b h
      cases b with
      | nil => simp [charsLt] at h
      | cons y ys => rfl
  | cons x xs ih =>
      intro b h
      cases b with
      | nil => simp [charsLt] at h
      | cons y ys =>
          simp only [charsLt] at h ⊢
          by_cases hxy : x < y
          · rw [if_neg (lt_asymm hxy), if_pos hxy]
          · rw [if_neg hxy] at h
            by_cases hyx : y < x
            · simp [hyx] at h
            · rw [if_neg hyx] at h
              rw [if_neg hyx, if_neg hxy]
              exact ih ys h

lemma charsLt_neg_trans : ∀ a b c : List Char, charsLt a b = false →
    charsLt b c = false → charsLt a c = false := by
  intro a
  induction a with
  | nil =>
      intro b c h1 h2
      cases b with
      | nil =>
          cases c with
          | nil => rfl
          | cons z zs => simp [charsLt] at h2
      | cons y ys => simp [charsLt] at h1
  | cons x xs ih =>
      intro b c h1 h2
      cases c with
      | nil => rfl
      | cons z zs =>
          cases b with
          | nil => simp [charsLt] at h2
          | cons y ys =>
              simp only [charsLt] at h1 h2 ⊢
              by_cases hxy : x < y
              · simp [hxy] at h1
              · rw [if_neg hxy] at h1
                by_cases hyz : y < z
                · simp [hyz] at h2
                · rw [if_neg hyz] at h2
                  have hyx2 : y ≤ x := not_lt.mp hxy
                  have hzy2 : z ≤ y := not_lt.mp hyz
                  have hxz : ¬ x < z := not_lt.mpr (hzy2.trans hyx2)
                  rw [if_neg hxz]
                  by_cases hzx : z < x
                  · rw [if_pos hzx]
                  · rw [if_neg hzx]
                    by_cases hyx : y < x
                    · exact absurd (lt_of_le_of_lt hzy2 hyx) hzx
                    · rw [if_neg hyx] at h1
                      by_cases hzy : z < y
                      · have hxy2 : x = y := le_antisymm (not_lt.mp hyx) hyx2
                        exact absurd (hxy2 ▸ hzy) hzx
                      · rw [if_neg hzy] at h2
                        exact ih ys zs h1 h2

lemma strLtB_asymm {a b : String} (h : strLtB a b = true) : strLtB b a = false :=
  charsLt_asymm a.data b.data h

lemma strLtB_neg_trans {a b c : String} (h1 : strLtB a b = false)
    (h2 : strLtB b c = false) : strLtB a c = false :=
  charsLt_neg_trans a.data b.data c.data h1 h2

lemma sortByDatetimeDesc_cons (x : CatalogRow) (xs : List CatalogRow) :
    sortByDatetimeDesc (x :: xs) = insertDesc x (sortByDatetimeDesc xs) := rfl

lemma mem_insertDesc {a r : CatalogRow} :
    ∀ {l : List CatalogRow}, a ∈ insertDesc r l ↔ a = r ∨ a ∈ l := by
  intro l
  induction l with
  | nil => simp [insertDesc]
  | cons x xs ih =>
      simp only [insertDesc]
      by_cases h : strLtB r.datetime x.datetime = true
      · rw [if_pos h]
        simp only [List.mem_cons, ih]
        tauto
      · rw [if_neg h]
        simp only [List.mem_cons]

lemma length_insertDesc (r : CatalogRow) :
    ∀ l : List CatalogRow, (insertDesc r l).length = l.length + 1 := by
  intro l
  induction l with
  | nil => rfl
  | cons x xs ih =>
      simp only [insertDesc]
      by_cases h : strLtB r.datetime x.datetime = true
      · rw [if_pos h]
        simp [ih]
      · rw [if_neg h]
        simp

lemma mem_sortByDatetimeDesc {a : CatalogRow} :
    ∀ {l : List CatalogRow}, a ∈ sortByDatetimeDesc l ↔ a ∈ l := by
  intro l
  induction l with
  | nil => simp [sortByDatetimeDesc]
  | cons x xs ih =>
      rw [sortByDatetimeDesc_cons]
      simp only [mem_insertDesc, ih, List.mem_cons]

lemma length_sortByDatetimeDesc :
    ∀ l : List CatalogRow, (sortByDatetimeDesc l).length = l.length := by
  intro l
  induction l with
  | nil => rfl
  | cons x xs ih =>
      rw [sortByDatetimeDesc_cons, length_insertDesc, ih]
      rfl

/-- Descending-datetime order between two rows. -/
def dtDesc (a b : CatalogRow) : Prop := strLtB a.datetime b.datetime = false

lemma pairwise_insertDesc (r : CatalogRow) :
    ∀ {l : List CatalogRow}, l.Pairwise dtDesc →
      (insertDesc r l).Pairwise dtDesc := by
  intro l
  induction l with
  | nil => simp [insertDesc]
  | cons x xs ih =>
      intro h
      rcases List.pairwise_cons.mp h with ⟨hx, hxs⟩
      simp only [insertDesc]
      by_cases hlt : strLtB r.datetime x.datetime = true
      · rw [if_pos hlt]
        refine List.pairwise_cons.mpr ⟨?_, ih hxs⟩
        intro b hb
        rcases mem_insertDesc.mp hb with rfl | hbxs
        · exact strLtB_asymm hlt
        · exact hx b hbxs
      · rw [if_neg hlt]
        refine List.pairwise_cons.mpr ⟨?_, h⟩
        intro b hb
        rcases List.mem_cons.mp hb with rfl | hbxs
        · exact Bool.eq_false_iff.mpr hlt
        · exact strLtB_neg_trans (Bool.eq_false_iff.mpr hlt) (hx b hbxs)

lemma pairwise_sortByDatetimeDesc :
    ∀ l : List CatalogRow, (sortByDatetimeDesc l).Pairwise dtDesc := by
  intro l
  induction l with
  | nil => simp [sortByDatetimeDesc]
  | cons x xs ih =>
      rw [sortByDatetimeDesc_cons]
      exact pairwise_insertDesc x ih

/-- C7: a search with bbox `[-10,-10,10,10]` over a store holding exactly
record A (bbox `[-5,-5,5,5]`) and record B (bbox `[20,20,30,30]`) returns
exactly the one-element list `[A]`. -/
theorem searchCatalog_scenarioA :
    searchCatalog { bbox := some ⟨-10, -10, 10, 10⟩ } [recA, recB] =
      [featureOf recA] := by
  rfl

/-- C1 counterexample: with platform filter `uav` and license filter `cc-by`,
the drone record with license `CC-BY-SA 4.0` is returned even though neither
categorical filter matches it exactly (case-insensitively): the code matches
`drone` under the `uav` filter and matches the license as a substring. -/
theorem searchCatalog_exact_match_cex :
    searchCatalog qCE [rCE] = [featureOf rCE] ∧ specMatches qCE rCE = false := by
  exact ⟨rfl, rfl⟩

/-- C1 (amended): provided the matching rows fit within `limit`, a feature is
returned iff it is the image of a stored row satisfying the code's pushed
WHERE clause `rowMatches`: bbox overlap when a bbox is supplied, inclusive
date range, platform equal case-insensitively (with filter `uav` also
matching `drone`), license matching as a case-insensitive substring, and the
text filter matching title as a case-insensitive substring. -/
theorem searchCatalog_mem_iff (q : SearchParams) (st : List CatalogRow)
    (f : Feature) (hcount : (st.filter (rowMatches q)).length ≤ q.limit) :
    f ∈ searchCatalog q st ↔
      ∃ r, r ∈ st ∧ rowMatches q r = true ∧ featureOf r = f := by
  have hlen : (sortByDatetimeDesc (st.filter (rowMatches q))).length ≤ q.limit := by
    rw [length_sortByDatetimeDesc]
    exact hcount
  unfold searchCatalog
  rw [List.take_of_length_le hlen, List.mem_map]
  constructor
  · rintro ⟨r, hr, rfl⟩
    have hm := List.mem_filter.mp (mem_sortByDatetimeDesc.mp hr)
    exact ⟨r, hm.1, hm.2, rfl⟩
  · rintro ⟨r, hst, hm, rfl⟩
    exact ⟨r, mem_sortByDatetimeDesc.mpr (List.mem_filter.mpr ⟨hst, hm⟩), rfl⟩

/-- C1 witness: the amended statement instantiated at a concrete query and
one-record store. -/
theorem searchCatalog_mem_iff_witness :
    (([rCE].filter (rowMatches qCE)).length ≤ qCE.limit) ∧
    (featureOf rCE ∈ searchCatalog qCE [rCE] ↔
      ∃ r, r ∈ [rCE] ∧ rowMatches qCE r = true ∧ featureOf r = featureOf rCE) :=
  ⟨by decide, searchCatalog_mem_iff qCE [rCE] (featureOf rCE) (by decide)⟩

/-- C2 counterexample: two records with equal `datetime` come back in store
order (`b` before `a`), not in ascending id order — the SQL orders by
`datetime DESC` only, with no id tiebreak. -/
theorem searchCatalog_tie_order_cex :
    ((searchCatalog qAll [rTieB, rTieA]).map fun f => f.properties.id) =
      ["b", "a"] ∧
    rTieB.datetime = rTieA.datetime ∧
    strLtB rTieA.id rTieB.id = true ∧
    ((searchCatalog qAll [rTieB, rTieA]).map fun f => f.properties.id) ≠
      ["a", "b"] := by
  exact ⟨rfl, rfl, rfl, by decide⟩

/-- C2 (amended): the returned list is ordered descending by `datetime`; the
relative order of records with equal `datetime` is not fixed by the code (the
SQL has no id tiebreak; the engine model keeps store order). -/
theorem searchCatalog_sorted_by_datetime (q : SearchParams)
    (st : List CatalogRow) :
    ((searchCatalog q st).map fun f => f.properties.datetime).Sorted
      (fun a b => strLtB a b = false) := by
  have h1 : ((sortByDatetimeDesc (st.filter (rowMatches q))).take
      q.limit).Pairwise dtDesc :=
    (pairwise_sortByDatetimeDesc _).sublist (List.take_sublist _ _)
  unfold searchCatalog
  rw [List.map_map, List.Sorted, List.pairwise_map]
  exact h1

/-- C3 counterexample: a call without any bbox executes normally and returns
a record — it neither validates the bbox nor raises a `QueryError`. -/
theorem searchCatalog_missing_bbox_cex :
    searchCatalog qAll [rCE] = [featureOf rCE] := by
  rfl

/-- C3 (amended): `bbox` is optional (default null) and never validated: a
call without bbox simply omits the spatial condition and returns the records
passing the remaining filters; no `QueryError` path exists in
`searchCatalog`. -/
theorem searchCatalog_bbox_optional (q : SearchParams) (st : List CatalogRow)
    (h : q.bbox = none) :
    searchCatalog q st =
      ((sortByDatetimeDesc (st.filter fun r =>
          dateStartCond q r && dateEndCond q r && platformCond q r &&
            licenseCond q r && gsdCond q r && queryCond q r)).take
        q.limit).map featureOf := by
  have hpred : rowMatches q = fun r =>
      dateStartCond q r && dateEndCond q r && platformCond q r &&
        licenseCond q r && gsdCond q r && queryCond q r := by
    funext r
    simp [rowMatches, bboxCond, h]
  unfold searchCatalog
  rw [hpred]

/-- C3 witness: the amended statement at the all-defaults query and a
one-record store. -/
theorem searchCatalog_bbox_optional_witness :
    searchCatalog qAll [rCE] =
      ((sortByDatetimeDesc ([rCE].filter fun r =>
          dateStartCond qAll r && dateEndCond qAll r && platformCond qAll r &&
            licenseCond qAll r && gsdCond qAll r && queryCond qAll r)).take
        qAll.limit).map featureOf :=
  searchCatalog_bbox_optional qAll [rCE] rfl

lemma initCalls_cached : ∀ (n : Nat) (st : CatalogConnState) (fresh p : Nat),
    st.initPromise = some p → initCalls n st fresh = (st, List.replicate n p) := by
  intro n
  induction n with
  | zero =>
      intro st fresh p h
      simp [initCalls, List.replicate]
  | succ k ih =>
      intro st fresh p h
      simp only [initCalls, initCatalog, h, List.replicate]
      rw [ih st (fresh + 1) p h]

/-- C4: starting from the fresh module state, any positive number of calls to
`initCatalog` starts the setup body exactly once, every caller gets the very
same promise, and therefore however that promise settles, all callers observe
the identical outcome (in particular the identical error on failure). -/
theorem initCatalog_single_flight (n seed : Nat) (h : 0 < n) :
    (initCalls n { initPromise := none, setups := 0 } seed).1.setups = 1 ∧
    (initCalls n { initPromise := none, setups := 0 } seed).2 =
      List.replicate n seed ∧
    ∀ settle : Nat → Except String Unit,
      ((initCalls n { initPromise := none, setups := 0 } seed).2.map settle) =
        List.replicate n (settle seed) := by
  obtain ⟨k, rfl⟩ : ∃ k, n = k + 1 := ⟨n - 1, (Nat.succ_pred_eq_of_pos h).symm⟩
  have hstep : initCalls (k + 1) { initPromise := none, setups := 0 } seed =
      (({ initPromise := some seed, setups := 1 } : CatalogConnState),
        seed :: List.replicate k seed) := by
    simp only [initCalls, initCatalog]
    rw [initCalls_cached k { initPromise := some seed, setups := 1 }
      (seed + 1) seed rfl]
  refine ⟨by rw [hstep], by rw [hstep, List.replicate_succ], ?_⟩
  intro settle
  rw [hstep, List.replicate_succ]
  simp [List.map_replicate]

/-- C4 witness: three callers, seed token 7, and a concrete failing
settlement observed identically by all three. -/
theorem initCatalog_single_flight_witness :
    (initCalls 3 { initPromise := none, setups := 0 } 7).1.setups = 1 ∧
    (initCalls 3 { initPromise := none, setups := 0 } 7).2 =
      List.replicate 3 7 ∧
    ((initCalls 3 { initPromise := none, setups := 0 } 7).2.map
        fun _ => (Except.error "network down" : Except String Unit)) =
      List.replicate 3 (Except.error "network down") :=
  ⟨(initCatalog_single_flight 3 7 (by decide)).1,
   (initCatalog_single_flight 3 7 (by decide)).2.1,
   (initCatalog_single_flight 3 7 (by decide)).2.2 _⟩

/-- C5: for any block layout and any query rectangle, every block the pruned
reader fetches has statistics overlapping the rectangle — equivalently, a
block whose statistics do not intersect the rectangle is never read. -/
theorem prunedRead_reads_only_overlapping (blocks : List ParquetBlock)
    (b : QueryBBox) :
    ((prunedRead blocks b).all fun blk => statsOverlap blk.stats b) = true := by
  simp only [prunedRead, List.all_eq_true]
  intro blk hblk
  exact (List.mem_filter.mp hblk).2

lemma prunedRead_complete (blocks : List ParquetBlock) (b : QueryBBox)
    (blk : ParquetBlock) (r : CatalogRow) (hblk : blk ∈ blocks)
    (hv : blockStatsValid blk = true) (hr : r ∈ blk.rows)
    (hm : bboxCond { bbox := some b } r = true) :
    blk ∈ prunedRead blocks b := by
  refine List.mem_filter.mpr ⟨hblk, ?_⟩
  simp only [blockStatsValid, List.all_eq_true] at hv
  have hrv := hv r hr
  simp only [Bool.and_eq_true, decide_eq_true_eq] at hrv
  simp only [bboxCond, Bool.and_eq_true, decide_eq_true_eq] at hm
  simp only [statsOverlap, Bool.and_eq_true, decide_eq_true_eq]
  omega

/-- C6 counterexample: search 2 is issued after search 1 but completes first
and sets the feature list to its results; the stale completion of search 1
then arrives and overwrites them — the final visible list is search 1's
result, not search 2's, so stale results are not discarded. -/
theorem runSearch_stale_overwrite_cex :
    runSearchCompletions resultsCE [2, 1] [] = [featureOf rCE] ∧
    resultsCE 2 = [] ∧ ([featureOf rCE] : List Feature) ≠ [] := by
  refine ⟨rfl, rfl, by simp⟩

/-- C6 (amended): the visible feature list always ends up equal to the
results of whichever search completed last, regardless of issue order —
`runSearch` has no request sequence number and never discards a stale
completion. -/
theorem runSearch_last_completion_wins (results : Nat → List Feature)
    (order : List Nat) (i : Nat) (features : List Feature) :
    runSearchCompletions results (order ++ [i]) features = results i := by
  simp [runSearchCompletions, List.foldl_append]

/-- Is a fetched poll outcome terminal for the client loop? -/
def FetchOutcome.isTerminal : FetchOutcome → Bool
  | .ok _ st _ => st == "complete" || st == "error"
  | _ => false

lemma pollTick_polling_of_not_terminal (c : PollClient) (o : FetchOutcome)
    (h : o.isTerminal = false) : (pollTick c o).polling = c.polling := by
  cases o with
  | netErr => rfl
  | notOk => rfl
  | ok stepOpt st errMsg =>
      simp only [FetchOutcome.isTerminal, Bool.or_eq_false_iff,
        beq_eq_false_iff_ne, ne_eq] at h
      cases stepOpt with
      | none => simp [pollTick, h.1, h.2]
      | some sv => simp [pollTick, h.1, h.2]

lemma pollLoop_times_out (maxPolls : Nat) (responses : Nat → FetchOutcome) :
    ∀ fuel count c, c.polling = true → count + fuel = maxPolls + 1 →
      count ≤ maxPolls →
      (∀ i, i ≤ maxPolls → (responses i).isTerminal = false) →
      ((pollLoop maxPolls responses fuel count c).status = "error" ∧
       (pollLoop maxPolls responses fuel count c).error = timeoutMsg ∧
       (pollLoop maxPolls responses fuel count c).polling = false) := by
  intro fuel
  induction fuel with
  | zero =>
      intro count c _ hsum hle _
      omega
  | succ k ih =>
      intro count c hp hsum hle hnt
      simp only [pollLoop, hp, if_true]
      by_cases hgt : count + 1 > maxPolls
      · rw [if_pos hgt]
        exact ⟨rfl, rfl, rfl⟩
      · rw [if_neg hgt]
        apply ih
        · rw [pollTick_polling_of_not_terminal _ _ (hnt (count + 1) (by omega))]
          exact hp
        · omega
        · omega
        · exact hnt

lemma pollLoop_congr (maxPolls : Nat) (r1 r2 : Nat → FetchOutcome) :
    ∀ fuel count c, (∀ i, count < i → i ≤ maxPolls → r1 i = r2 i) →
      pollLoop maxPolls r1 fuel count c = pollLoop maxPolls r2 fuel count c := by
  intro fuel
  induction fuel with
  | zero =>
      intro count c _
      rfl
  | succ k ih =>
      intro count c hag
      simp only [pollLoop]
      by_cases hp : c.polling = true
      · simp only [hp, if_true]
        by_cases hgt : count + 1 > maxPolls
        · rw [if_pos hgt, if_pos hgt]
        · rw [if_neg hgt, if_neg hgt, hag (count + 1) (by omega) (by omega)]
          exact ih (count + 1) _ fun i h1 h2 => hag i (by omega) h2
      · simp [hp]

/-- C8: if the status file yields no terminal status during the first 120
polls (the source's `maxPolls` bound), the client loop stops in the
timed-out error state with the timeout message; and the outcome of
`pollStatus` depends only on the first 120 fetches — whatever the pipeline
does after the bound (it may still be running and later report success) is
never observed, so the timeout is a client-side verdict only. -/
theorem pollStatus_times_out_after_bound (responses : Nat → FetchOutcome)
    (h : ∀ i, i ≤ 120 → (responses i).isTerminal = false) :
    ((pollStatus responses).status = "error" ∧
     (pollStatus responses).error = timeoutMsg ∧
     (pollStatus responses).polling = false) ∧
    ∀ later : Nat → FetchOutcome, (∀ i, i ≤ 120 → later i = responses i) →
      pollStatus later = pollStatus responses := by
  constructor
  · exact pollLoop_times_out 120 responses 121 0 pollStart rfl (by omega)
      (by omega) h
  · intro later hag
    exact pollLoop_congr 120 later responses 121 0 pollStart
      fun i h1 h2 => hag i h2

/-- C8 witness: a stream that is pending for 120 polls and reports success
from poll 121 on still yields the client-side timeout. -/
theorem pollStatus_times_out_witness :
    ((pollStatus pollRespW).status = "error" ∧
     (pollStatus pollRespW).error = timeoutMsg ∧
     (pollStatus pollRespW).polling = false) ∧
    pollRespW 121 = .ok (some "done") "complete" none :=
  ⟨(pollStatus_times_out_after_bound pollRespW
      (by intro i hi; simp [pollRespW, hi, FetchOutcome.isTerminal])).1,
   rfl⟩

/-- C9: whenever the connection is usable (or the lazy init succeeds) and the
aggregate catalog query fails — for instance because catalog.parquet does not
exist — `getCatalogStats` does not propagate the error: it returns the zeroed
default statistics object. -/
theorem getCatalogStats_defaults_on_query_failure (ready : Bool)
    (initOut : Except String Unit) (e : String)
    (h : ready = true ∨ initOut = .ok ()) :
    getCatalogStats ready initOut (.error e) = .ok zeroStats := by
  rcases h with h | h
  · simp [getCatalogStats, h]
  · cases ready
    · simp [getCatalogStats, h]
    · simp [getCatalogStats]

/-- C9 witness: an established connection and a concrete failing query. -/
theorem getCatalogStats_defaults_witness :
    getCatalogStats true (.ok ()) (.error "no such file") = .ok zeroStats :=
  getCatalogStats_defaults_on_query_failure true (.ok ()) "no such file"
    (Or.inl rfl)

lemma numConv_isPlain (v : NumVal) : (numConv v).isPlain = true := by
  cases v <;> rfl

/-- C10: every feature returned by `searchCatalog` is the image of a stored
row; its geometry is a Polygon with a single five-point closed ring — the
axis-aligned rectangle of the row's bbox covering columns — and each of its
integer-valued properties is a plain Number (BigInt converted by `num`). -/
theorem searchCatalog_feature_shape (q : SearchParams) (st : List CatalogRow)
    (f : Feature) (hf : f ∈ searchCatalog q st) :
    ∃ r, r ∈ st ∧ f = featureOf r ∧
      f.geometry.gtype = "Polygon" ∧
      f.geometry.coordinates =
        [[ (r.bbox.xmin, r.bbox.ymin), (r.bbox.xmax, r.bbox.ymin),
           (r.bbox.xmax, r.bbox.ymax), (r.bbox.xmin, r.bbox.ymax),
           (r.bbox.xmin, r.bbox.ymin) ]] ∧
      (f.geometry.coordinates.all fun ring =>
        (ring.length == 5) && (ring.head? == ring.getLast?)) = true ∧
      f.properties.file_size.isPlain = true ∧
      f.properties.width.isPlain = true ∧
      f.properties.height.isPlain = true ∧
      f.properties.bands.isPlain = true ∧
      f.properties.epsg.isPlain = true := by
  unfold searchCatalog at hf
  rcases List.mem_map.mp hf with ⟨r, hr, rfl⟩
  have hst : r ∈ st :=
    (List.mem_filter.mp (mem_sortByDatetimeDesc.mp
      (List.take_subset _ _ hr))).1
  refine ⟨r, hst, rfl, rfl, rfl, ?_, numConv_isPlain _, numConv_isPlain _,
    numConv_isPlain _, numConv_isPlain _, numConv_isPlain _⟩
  simp [featureOf, List.all, List.getLast?, List.getLast]

/-- C10 witness: the shape statement at scenario A's query and store, for the
one returned feature. -/
theorem searchCatalog_feature_shape_witness :
    featureOf recA ∈ searchCatalog { bbox := some ⟨-10, -10, 10, 10⟩ }
      [recA, recB] ∧
    ∃ r, r ∈ [recA, recB] ∧ featureOf recA = featureOf r ∧
      (featureOf recA).geometry.gtype = "Polygon" ∧
      (featureOf recA).geometry.coordinates =
        [[ (r.bbox.xmin, r.bbox.ymin), (r.bbox.xmax, r.bbox.ymin),
           (r.bbox.xmax, r.bbox.ymax), (r.bbox.xmin, r.bbox.ymax),
           (r.bbox.xmin, r.bbox.ymin) ]] ∧
      ((featureOf recA).geometry.coordinates.all fun ring =>
        (ring.length == 5) && (ring.head? == ring.getLast?)) = true ∧
      (featureOf recA).properties.file_size.isPlain = true ∧
      (featureOf recA).properties.width.isPlain = true ∧
      (featureOf recA).properties.height.isPlain = true ∧
      (featureOf recA).properties.bands.isPlain = true ∧
      (featureOf recA).properties.epsg.isPlain = true :=
  ⟨by decide,
   searchCatalog_feature_shape { bbox := some ⟨-10, -10, 10, 10⟩ }
     [recA, recB] (featureOf recA) (by decide)⟩
